import Mathlib

/-!
# Verification of the Price_Oracle repository against its specification

This file shallowly embeds the two cores of the repository:

* the Solidity contract `PriceOracle` (embedded in `src/README.md`):
  state, `updatePrice`, `setThresholds`, the authorization registries,
  attestation verification and threshold checking;
* the off-chain ROFL application (`src/rofl-app/src/index.js`):
  `shouldUpdatePrice`, `fetchPriceFromCoinGecko`, `submitPriceUpdate`
  and `fetchAndUpdatePrice`.

Modelling conventions:
* `uint256` values are `Nat` (no arithmetic in the contract can overflow
  at the inputs considered; Solidity 0.8 would revert on overflow of
  `timestamp + MAX_PRICE_AGE`, which `Nat` addition never reaches);
* addresses are `Nat`;
* `keccak256(abi.encodePacked(price, timestamp, appId))` is modelled by a
  collision-free constructor `Bytes32.keccakPacked` applied to the packed
  arguments, with `Bytes32.zero` for the default `bytes32(0)`;
* the `bytes` attestation argument is modelled structurally: `none` stands
  for any byte string on which `abi.decode` reverts (the `catch` branch),
  `some d` for the ABI encoding of the decoded tuple `d`;
* a reverting call is an `Except.error`; the EVM rollback semantics is the
  wrapper `updatePriceRun`, which restores the pre-call state on a revert;
* JavaScript `Number` arithmetic in the ROFL app is modelled as exact
  rational arithmetic (the concrete boundary values of the specification
  are exactly representable and the double computations agree on them).
-/

namespace PriceOracle

/-- `bytes32` values that arise in the contract: the default zero value and
`keccak256(abi.encodePacked(price, timestamp, appId))`, modelled as a
collision-free constructor applied to the packed arguments. -/
inductive Bytes32 where
  | zero : Bytes32
  | keccakPacked (price : Nat) (timestamp : Nat) (appId : String) : Bytes32
  deriving DecidableEq, Repr

/-- `struct PriceData` of the contract. -/
structure PriceData where
  price : Nat
  timestamp : Nat
  oracle : Nat
  dataHash : Bytes32
  deriving DecidableEq, Repr

/-- `struct ThresholdConfig` of the contract. -/
structure ThresholdConfig where
  upperBound : Nat
  lowerBound : Nat
  enabled : Bool
  deriving DecidableEq, Repr

/-- The tuple returned by `_decodeAttestation`: outer tuple
`(appId, attestationTimestamp, priceDataBytes, teeQuote, signature)` with the
inner `priceDataBytes` tuple `(price, dataTimestamp, source)` decoded. -/
structure DecodedAttestation where
  appId : String
  attestationTimestamp : Nat
  price : Nat
  dataTimestamp : Nat
  source : String
  teeQuote : List Nat
  signature : Bytes32
  deriving DecidableEq, Repr

/-- The `bytes calldata attestation` argument, modelled structurally:
`none` is any byte string on which `abi.decode` reverts, `some d` the
encoding of the tuple `d`. -/
def AttestationBytes : Type := Option DecodedAttestation

/-- Events emitted by the contract. -/
inductive Event where
  | priceUpdated (price : Nat) (timestamp : Nat) (oracle : Nat) (appId : String)
  | thresholdBreached (price : Nat) (isUpper : Bool) (threshold : Nat)
  | thresholdConfigured (upperBound : Nat) (lowerBound : Nat) (enabled : Bool)
  | appAuthorized (appId : String) (authorized : Bool)
  | oracleAuthorized (oracle : Nat) (authorized : Bool)
  deriving DecidableEq, Repr

/-- Reverts of the contract: the custom errors, the `require` string of
`setThresholds`, and OpenZeppelin `Ownable`'s unauthorized-caller revert. -/
inductive OracleError where
  | unauthorizedApp (appId : String)
  | unauthorizedOracle (oracle : Nat)
  | invalidAttestation
  | priceTooOld (timestamp : Nat)
  | invalidPriceData
  | requireFailure (msg : String)
  | ownableUnauthorizedAccount (account : Nat)
  deriving DecidableEq, Repr

/-- Contract storage: `latestPrice`, `thresholds`, the two authorization
mappings (Solidity `mapping(... => bool)`, modelled as total Boolean
functions defaulting to `false`), and `Ownable`'s `owner`. -/
structure ContractState where
  latestPrice : PriceData
  thresholds : ThresholdConfig
  authorizedApps : String → Bool
  authorizedOracles : Nat → Bool
  owner : Nat

/-- `MAX_PRICE_AGE = 1 hours`. -/
def MAX_PRICE_AGE : Nat := 3600

/-- `PRICE_DECIMALS = 8`. -/
def PRICE_DECIMALS : Nat := 8

/-- The constructor: storage starts zero-initialized, then the initial app
and oracle are authorized. Returns the state and the emitted events. -/
def deploy (sender : Nat) (initialAppId : String) (initialOracle : Nat) :
    ContractState × List Event :=
  ({ latestPrice := { price := 0, timestamp := 0, oracle := 0, dataHash := Bytes32.zero }
     thresholds := { upperBound := 0, lowerBound := 0, enabled := false }
     authorizedApps := fun a => a == initialAppId
     authorizedOracles := fun o => o == initialOracle
     owner := sender },
   [Event.appAuthorized initialAppId true, Event.oracleAuthorized initialOracle true])

/-- `_verifyAttestation`: decode (structural failure ⇒ `InvalidAttestation`),
check the attested price/timestamp against the call parameters, check the
attestation timestamp is within 300 seconds of `now`; returns the decoded
app id. The TEE quote and signature are not verified (demo placeholder). -/
def verifyAttestation (now : Nat) (price : Nat) (timestamp : Nat)
    (attestation : AttestationBytes) : Except OracleError String :=
  match attestation with
  | none => Except.error OracleError.invalidAttestation
  | some d =>
    if d.price ≠ price ∨ d.dataTimestamp ≠ timestamp then
      Except.error OracleError.invalidAttestation
    else if now > d.attestationTimestamp + 300 then
      Except.error OracleError.invalidAttestation
    else
      Except.ok d.appId

/-- `_checkThresholds`: if enabled, emit a breach event above the upper bound,
else (if) below the lower bound; otherwise nothing. -/
def checkThresholds (t : ThresholdConfig) (price : Nat) : List Event :=
  if !t.enabled then []
  else if price > t.upperBound then [Event.thresholdBreached price true t.upperBound]
  else if price < t.lowerBound then [Event.thresholdBreached price false t.lowerBound]
  else []

/-- `updatePrice(price, timestamp, attestation)` called by `sender` at block
timestamp `now`: authorization, validity, staleness and attestation checks in
source order, then the atomic store of `latestPrice`, threshold evaluation and
the `PriceUpdated` event. An `Except.error` is a revert. -/
def updatePrice (st : ContractState) (sender : Nat) (now : Nat)
    (price : Nat) (timestamp : Nat) (attestation : AttestationBytes) :
    Except OracleError (ContractState × List Event) :=
  if !st.authorizedOracles sender then
    Except.error (OracleError.unauthorizedOracle sender)
  else if price = 0 then
    Except.error OracleError.invalidPriceData
  else if now > timestamp + MAX_PRICE_AGE then
    Except.error (OracleError.priceTooOld timestamp)
  else
    match verifyAttestation now price timestamp attestation with
    | Except.error e => Except.error e
    | Except.ok appId =>
      if !st.authorizedApps appId then
        Except.error (OracleError.unauthorizedApp appId)
      else
        let dataHash := Bytes32.keccakPacked price timestamp appId
        let st' := { st with latestPrice :=
          { price := price, timestamp := timestamp, oracle := sender, dataHash := dataHash } }
        let breachEvents := checkThresholds st.thresholds price
        Except.ok (st', breachEvents ++ [Event.priceUpdated price timestamp sender appId])

/-- EVM revert semantics: a reverting `updatePrice` call rolls the state back
and emits nothing; an accepted call commits the returned state and events. -/
def updatePriceRun (st : ContractState) (sender : Nat) (now : Nat)
    (price : Nat) (timestamp : Nat) (attestation : AttestationBytes) :
    ContractState × List Event :=
  match updatePrice st sender now price timestamp attestation with
  | Except.error _ => (st, [])
  | Except.ok r => r

/-- `getLatestPrice()`. -/
def getLatestPrice (st : ContractState) : Nat × Nat :=
  (st.latestPrice.price, st.latestPrice.timestamp)

/-- `getLatestPriceData()`. -/
def getLatestPriceData (st : ContractState) : PriceData :=
  st.latestPrice

/-- `setThresholds(upperBound, lowerBound, enabled)`: `onlyOwner`, then
`require(upperBound > lowerBound, "Upper bound must be greater than lower bound")`
(unconditionally, whatever `enabled` is), then store and emit. -/
def setThresholds (st : ContractState) (sender : Nat)
    (upperBound : Nat) (lowerBound : Nat) (enabled : Bool) :
    Except OracleError (ContractState × List Event) :=
  if sender ≠ st.owner then
    Except.error (OracleError.ownableUnauthorizedAccount sender)
  else if !(upperBound > lowerBound) then
    Except.error (OracleError.requireFailure "Upper bound must be greater than lower bound")
  else
    Except.ok
      ({ st with thresholds :=
         { upperBound := upperBound, lowerBound := lowerBound, enabled := enabled } },
       [Event.thresholdConfigured upperBound lowerBound enabled])

/-- `setAppAuthorization(appId, authorized)` (`onlyOwner`). -/
def setAppAuthorization (st : ContractState) (sender : Nat)
    (appId : String) (authorized : Bool) :
    Except OracleError (ContractState × List Event) :=
  if sender ≠ st.owner then
    Except.error (OracleError.ownableUnauthorizedAccount sender)
  else
    Except.ok
      ({ st with authorizedApps := fun a => if a == appId then authorized else st.authorizedApps a },
       [Event.appAuthorized appId authorized])

/-- `setOracleAuthorization(oracle, authorized)` (`onlyOwner`). -/
def setOracleAuthorization (st : ContractState) (sender : Nat)
    (oracle : Nat) (authorized : Bool) :
    Except OracleError (ContractState × List Event) :=
  if sender ≠ st.owner then
    Except.error (OracleError.ownableUnauthorizedAccount sender)
  else
    Except.ok
      ({ st with authorizedOracles := fun o => if o == oracle then authorized else st.authorizedOracles o },
       [Event.oracleAuthorized oracle authorized])

/-- Recognizer for `PriceUpdated` events. -/
def Event.isPriceUpdated : Event → Bool
  | Event.priceUpdated _ _ _ _ => true
  | _ => false

/-- Recognizer for `ThresholdBreached` events. -/
def Event.isThresholdBreached : Event → Bool
  | Event.thresholdBreached _ _ _ => true
  | _ => false

end PriceOracle

namespace RoflApp

/-- `ethers.formatUnits(x, 8)` followed by `Number(...)`: the scaled integer
read as a decimal with 8 fractional places. JavaScript double arithmetic is
modelled as exact rational arithmetic. -/
def formatUnits8 (x : ℤ) : ℚ := (x : ℚ) / 100000000

/-- `PriceOracle.shouldUpdatePrice` (`src/rofl-app/src/index.js`). The JS guard
`!this.lastPrice` is truthiness: it fires when `lastPrice` is `null` (modelled
`none`) and also when it is the BigInt `0n`. Otherwise the relative change in
percent is compared against `config.oracle.thresholdPercentage`, boundary
inclusive. -/
def shouldUpdatePrice (lastPrice : Option ℤ) (newPrice : ℤ)
    (thresholdPercentage : ℚ) : Bool :=
  match lastPrice with
  | none => true
  | some lp =>
    if lp = 0 then true
    else
      let oldPrice := formatUnits8 lp
      let currentPrice := formatUnits8 newPrice
      let percentageChange := |(currentPrice - oldPrice) / oldPrice| * 100
      decide (percentageChange ≥ thresholdPercentage)

/-- The object returned by `fetchPriceFromCoinGecko`:
`{ price, timestamp, source }` with `price` a scaled BigInt. -/
structure FetchedQuote where
  price : ℤ
  timestamp : Nat
  source : String
  deriving DecidableEq, Repr

/-- `ethers.parseUnits(v.toString(), 8)`: exact scaling of the decimal value
by `10^8`; ethers throws (no rounding, no truncation) when the decimal has
more than 8 fractional digits, i.e. when `v * 10^8` is not an integer. -/
def parseUnits8 (v : ℚ) : Except String ℤ :=
  let scaled : ℚ := v * 100000000
  if scaled.den = 1 then Except.ok scaled.num
  else Except.error "fractional component exceeds decimals"

/-- `PriceOracle.fetchPriceFromCoinGecko` after the HTTP layer: the input is
`response.data.ethereum?.usd`, modelled as `Option ℚ` (`none` for a missing
field; `NaN` and string-typed values are outside the model). The JS check
`if (!ethPrice) throw` fires exactly on the falsy values `undefined` and `0`;
any other value reaches `parseUnits`. `now` is `Math.floor(Date.now()/1000)`. -/
def fetchPriceFromCoinGecko (ethPrice : Option ℚ) (now : Nat) :
    Except String FetchedQuote :=
  match ethPrice with
  | none => Except.error "Invalid response from CoinGecko API"
  | some v =>
    if v = 0 then Except.error "Invalid response from CoinGecko API"
    else
      match parseUnits8 v with
      | Except.error e => Except.error e
      | Except.ok p => Except.ok { price := p, timestamp := now, source := "coingecko" }

/-- Outcome of one on-chain submission attempt (gas estimation + transaction
+ confirmation), as seen by the client. -/
inductive TxOutcome where
  | success (receipt : Nat)
  | failure (msg : String)
  deriving DecidableEq, Repr

/-- `PriceOracle.submitPriceUpdate`, run against a stream of attempt outcomes
the chain would give to successive attempts. The source performs exactly one
gas-estimate/send/wait sequence inside a single `try`: it consumes one
outcome, returns its receipt on success, and on failure logs and rethrows —
there is no retry loop and no backoff. Returns the result together with the
outcomes left unconsumed. -/
def submitPriceUpdate (attempts : List TxOutcome) :
    Except String Nat × List TxOutcome :=
  match attempts with
  | [] => (Except.error "no transaction outcome", [])
  | TxOutcome.success r :: rest => (Except.ok r, rest)
  | TxOutcome.failure m :: rest => (Except.error m, rest)

/-- Modelled from the spec (§4.4), for comparison with `submitPriceUpdate`:
a Submission Client that retries transient failures up to `cap` attempts
before surfacing the last failure. -/
def submitWithRetry (cap : Nat) (attempts : List TxOutcome) :
    Except String Nat × List TxOutcome :=
  match cap, attempts with
  | 0, rest => (Except.error "retries exhausted", rest)
  | _ + 1, [] => (Except.error "no transaction outcome", [])
  | _ + 1, TxOutcome.success r :: rest => (Except.ok r, rest)
  | n + 1, TxOutcome.failure m :: rest =>
    match n, rest with
    | 0, _ => (Except.error m, rest)
    | _ + 1, _ => submitWithRetry n rest

/-- Mutable fields of the `PriceOracle` JS class touched by a poll cycle. -/
structure OracleState where
  isRunning : Bool
  lastPrice : Option ℤ
  lastUpdateTime : Option Nat
  deriving DecidableEq, Repr

/-- `PriceOracle.fetchAndUpdatePrice`: one poll cycle. `fetched` is the result
of `fetchPriceFromCoinGecko` (an `error` is a thrown exception), `txAttempts`
the chain's outcomes for submission attempts. The entire body runs in a
`try/catch` whose handler only logs ("Continue running despite errors"), so a
fetch or submission failure leaves the state unchanged and never escapes;
attestation generation is not observable in this state and is not modelled. -/
def fetchAndUpdatePrice (st : OracleState) (fetched : Except String FetchedQuote)
    (thresholdPercentage : ℚ) (txAttempts : List TxOutcome) : OracleState :=
  if !st.isRunning then st
  else
    match fetched with
    | Except.error _ => st
    | Except.ok q =>
      if !shouldUpdatePrice st.lastPrice q.price thresholdPercentage then st
      else
        match (submitPriceUpdate txAttempts).fst with
        | Except.error _ => st
        | Except.ok _ =>
          { st with lastPrice := some q.price, lastUpdateTime := some q.timestamp }

end RoflApp

open PriceOracle RoflApp

/-- Test fixture: the state right after `deploy(1, "app", 2)` — owner `1`,
authorized app `"app"`, authorized oracle `2`. -/
def testState : ContractState := (deploy 1 "app" 2).fst

/-- Test fixture: `testState` after `setThresholds(2500·10^8, 1500·10^8, true)`. -/
def testStateThresholds : ContractState :=
  { testState with thresholds :=
    { upperBound := 250000000000, lowerBound := 150000000000, enabled := true } }

/-- Test fixture: a well-formed decoded attestation for app `"app"`, with the
attestation timestamp equal to the data timestamp. -/
def testAtt (price : Nat) (timestamp : Nat) : DecodedAttestation :=
  { appId := "app", attestationTimestamp := timestamp, price := price,
    dataTimestamp := timestamp, source := "coingecko", teeQuote := [],
    signature := Bytes32.zero }

/-- `checkThresholds` emits only `ThresholdBreached` events. -/
theorem checkThresholds_filter_priceUpdated (t : ThresholdConfig) (price : Nat) :
    (checkThresholds t price).filter Event.isPriceUpdated = [] := by
  unfold checkThresholds
  split
  · rfl
  · split
    · simp [Event.isPriceUpdated]
    · split
      · simp [Event.isPriceUpdated]
      · rfl

/-- Every element of `checkThresholds t price` is a `ThresholdBreached` event. -/
theorem checkThresholds_filter_breached (t : ThresholdConfig) (price : Nat) :
    (checkThresholds t price).filter Event.isThresholdBreached = checkThresholds t price := by
  unfold checkThresholds
  split
  · rfl
  · split
    · simp [Event.isThresholdBreached]
    · split
      · simp [Event.isThresholdBreached]
      · rfl

/-- Unfolding equation of `verifyAttestation` on a decodable attestation. -/
theorem verifyAttestation_some (now price timestamp : Nat) (d : DecodedAttestation) :
    verifyAttestation now price timestamp (some d) =
      if d.price ≠ price ∨ d.dataTimestamp ≠ timestamp then
        Except.error OracleError.invalidAttestation
      else if now > d.attestationTimestamp + 300 then
        Except.error OracleError.invalidAttestation
      else Except.ok d.appId := rfl

/-- A `verifyAttestation` failure is always `InvalidAttestation`. -/
theorem verifyAttestation_error_eq {now price timestamp : Nat}
    {att : AttestationBytes} {e : OracleError}
    (h : verifyAttestation now price timestamp att = Except.error e) :
    e = OracleError.invalidAttestation := by
  match att with
  | none =>
    rw [show verifyAttestation now price timestamp none =
        Except.error OracleError.invalidAttestation from rfl] at h
    cases h
    rfl
  | some d =>
    rw [verifyAttestation_some] at h
    split at h
    · cases h; rfl
    · split at h
      · cases h; rfl
      · cases h

/-- C1: with a valid price, fresh observation and attestation, matching
payload, and authorized oracle and app, `updatePrice` succeeds: `latestPrice`
becomes exactly `(price, timestamp, sender, keccak(price, timestamp, appId))`,
the rest of the state is untouched, and the emitted events contain exactly one
`PriceUpdated(price, timestamp, sender, appId)` event. -/
theorem updatePrice_valid_commits (st : ContractState)
    (sender : Nat) (now : Nat) (price : Nat) (timestamp : Nat)
    (d : DecodedAttestation)
    (hOracle : st.authorizedOracles sender = true)
    (hPrice : 0 < price)
    (hFresh : now ≤ timestamp + MAX_PRICE_AGE)
    (hAttPrice : d.price = price)
    (hAttTs : d.dataTimestamp = timestamp)
    (hAttFresh : now ≤ d.attestationTimestamp + 300)
    (hApp : st.authorizedApps d.appId = true) :
    updatePrice st sender now price timestamp (some d) =
      Except.ok
        ({ st with latestPrice :=
           { price := price, timestamp := timestamp, oracle := sender,
             dataHash := Bytes32.keccakPacked price timestamp d.appId } },
         checkThresholds st.thresholds price ++
           [Event.priceUpdated price timestamp sender d.appId]) ∧
    (checkThresholds st.thresholds price ++
        [Event.priceUpdated price timestamp sender d.appId]).filter Event.isPriceUpdated =
      [Event.priceUpdated price timestamp sender d.appId] := by
  constructor
  · have hva : verifyAttestation now price timestamp (some d) = Except.ok d.appId := by
      rw [verifyAttestation_some, if_neg (by simp [hAttPrice, hAttTs]), if_neg (by omega)]
    simp [updatePrice, hOracle, hva, hApp, Nat.pos_iff_ne_zero.mp hPrice, Nat.not_lt.mpr hFresh]
  · rw [List.filter_append, checkThresholds_filter_priceUpdated]
    simp [Event.isPriceUpdated]

/-- C1 witness: `updatePrice(2000·10^8, 1000, att)` from oracle `2` at block
time `1000` on the freshly deployed test state. -/
theorem updatePrice_valid_commits_witness :
    updatePrice testState 2 1000 200000000000 1000 (some (testAtt 200000000000 1000)) =
      Except.ok
        ({ testState with latestPrice :=
           { price := 200000000000, timestamp := 1000, oracle := 2,
             dataHash := Bytes32.keccakPacked 200000000000 1000 "app" } },
         checkThresholds testState.thresholds 200000000000 ++
           [Event.priceUpdated 200000000000 1000 2 "app"]) ∧
    (checkThresholds testState.thresholds 200000000000 ++
        [Event.priceUpdated 200000000000 1000 2 "app"]).filter Event.isPriceUpdated =
      [Event.priceUpdated 200000000000 1000 2 "app"] :=
  updatePrice_valid_commits testState 2 1000 200000000000 1000
    (testAtt 200000000000 1000) rfl (by decide) (by decide) rfl rfl (by decide) rfl

/-- C2: every rejected `updatePrice` call leaves the whole contract state —
`latestPrice`, `thresholds`, and both authorization mappings — exactly as it
was and emits no event. -/
theorem updatePrice_reject_no_state_change (st : ContractState)
    (sender : Nat) (now : Nat) (price : Nat) (timestamp : Nat)
    (attestation : AttestationBytes) (e : OracleError)
    (h : updatePrice st sender now price timestamp attestation = Except.error e) :
    updatePriceRun st sender now price timestamp attestation = (st, []) := by
  unfold updatePriceRun
  rw [h]

/-- C2 witness: an unauthorized sender's call on the test state rolls back. -/
theorem updatePrice_reject_no_state_change_witness :
    updatePriceRun testState 3 1000 5 1000 none = (testState, []) :=
  updatePrice_reject_no_state_change testState 3 1000 5 1000 none
    (OracleError.unauthorizedOracle 3) rfl

/-- C3: if the attestation decodes but its payload price or payload timestamp
differs from the call parameters (with the earlier checks of the call passing),
the call reverts with `InvalidAttestation` and the state is unchanged. -/
theorem updatePrice_payload_mismatch_rejected (st : ContractState)
    (sender : Nat) (now : Nat) (price : Nat) (timestamp : Nat)
    (d : DecodedAttestation)
    (hOracle : st.authorizedOracles sender = true)
    (hPrice : price ≠ 0)
    (hFresh : now ≤ timestamp + MAX_PRICE_AGE)
    (hMismatch : d.price ≠ price ∨ d.dataTimestamp ≠ timestamp) :
    updatePrice st sender now price timestamp (some d) =
      Except.error OracleError.invalidAttestation ∧
    updatePriceRun st sender now price timestamp (some d) = (st, []) := by
  have hva : verifyAttestation now price timestamp (some d) =
      Except.error OracleError.invalidAttestation := by
    rw [verifyAttestation_some, if_pos hMismatch]
  have h1 : updatePrice st sender now price timestamp (some d) =
      Except.error OracleError.invalidAttestation := by
    simp [updatePrice, hOracle, hPrice, Nat.not_lt.mpr hFresh, hva]
  refine ⟨h1, ?_⟩
  unfold updatePriceRun
  rw [h1]

/-- C3 witness: an attestation over price `6` submitted with call price `5`. -/
theorem updatePrice_payload_mismatch_rejected_witness :
    updatePrice testState 2 1000 5 1000 (some (testAtt 6 1000)) =
      Except.error OracleError.invalidAttestation ∧
    updatePriceRun testState 2 1000 5 1000 (some (testAtt 6 1000)) = (testState, []) :=
  updatePrice_payload_mismatch_rejected testState 2 1000 5 1000 (testAtt 6 1000)
    rfl (by decide) (by decide) (Or.inl (by decide))

/-- C6: with an authorized sender and nonzero price, `updatePrice` reverts
`PriceTooOld` exactly on the stale side of the boundary: if
`now > timestamp + 3600` the call fails `PriceTooOld(timestamp)`, and if
`now ≤ timestamp + 3600` the staleness check passes — the call can never
return a `PriceTooOld` error. -/
theorem updatePrice_staleness_boundary (st : ContractState)
    (sender : Nat) (now : Nat) (price : Nat) (timestamp : Nat)
    (attestation : AttestationBytes)
    (hOracle : st.authorizedOracles sender = true)
    (hPrice : price ≠ 0) :
    (timestamp + MAX_PRICE_AGE < now →
      updatePrice st sender now price timestamp attestation =
        Except.error (OracleError.priceTooOld timestamp)) ∧
    (now ≤ timestamp + MAX_PRICE_AGE →
      ∀ t, updatePrice st sender now price timestamp attestation ≠
        Except.error (OracleError.priceTooOld t)) := by
  constructor
  · intro hlt
    simp [updatePrice, hOracle, hPrice, hlt]
  · intro hle t hcontra
    simp only [updatePrice, hOracle, Bool.not_true, Bool.false_eq_true, if_false,
      if_neg hPrice, if_neg (Nat.not_lt.mpr hle)] at hcontra
    cases hva : verifyAttestation now price timestamp attestation with
    | error e =>
      rw [hva, verifyAttestation_error_eq hva] at hcontra
      exact absurd hcontra (by simp)
    | ok appId =>
      rw [hva] at hcontra
      by_cases happ : st.authorizedApps appId
      · simp [happ] at hcontra
      · simp only [happ] at hcontra
        exact absurd hcontra (by simp)

/-- C6 witness: at `MAX_AGE = 3600`, `observedAt = now − 3601` fails
`PriceTooOld` and `observedAt = now − 3599` passes the staleness check
(taking `now = 5000`: timestamps `1399` and `1401`). -/
theorem updatePrice_staleness_boundary_witness :
    updatePrice testState 2 5000 5 1399 none =
      Except.error (OracleError.priceTooOld 1399) ∧
    updatePrice testState 2 5000 5 1401 none ≠
      Except.error (OracleError.priceTooOld 1401) :=
  ⟨(updatePrice_staleness_boundary testState 2 5000 5 1399 none rfl (by decide)).1
      (by decide),
   (updatePrice_staleness_boundary testState 2 5000 5 1401 none rfl (by decide)).2
      (by decide) 1401⟩

/-- The accepted branch of `updatePrice` determines the event list. -/
theorem updatePrice_ok_events (st st' : ContractState)
    (sender : Nat) (now : Nat) (price : Nat) (timestamp : Nat)
    (attestation : AttestationBytes) (evts : List Event)
    (h : updatePrice st sender now price timestamp attestation =
      Except.ok (st', evts)) :
    ∃ appId, evts = checkThresholds st.thresholds price ++
      [Event.priceUpdated price timestamp sender appId] := by
  unfold updatePrice at h
  split at h
  · cases h
  · split at h
    · cases h
    · split at h
      · cases h
      · split at h
        · cases h
        next appId hva =>
          split at h
          · cases h
          · refine ⟨appId, ?_⟩
            cases h
            rfl

/-- C4: on every accepted update, the breach events among the emitted events
follow the threshold policy: with thresholds enabled (and the enabled-range
invariant `lowerBound ≤ upperBound` that `setThresholds` maintains), a price
above the upper bound yields exactly one upper-breach event, a price below
the lower bound exactly one lower-breach event; with thresholds disabled, or a
price inside `[lowerBound, upperBound]`, none; never more than one. -/
theorem updatePrice_threshold_events (st st' : ContractState)
    (sender : Nat) (now : Nat) (price : Nat) (timestamp : Nat)
    (attestation : AttestationBytes) (evts : List Event)
    (hinv : st.thresholds.enabled = true →
      st.thresholds.lowerBound ≤ st.thresholds.upperBound)
    (h : updatePrice st sender now price timestamp attestation =
      Except.ok (st', evts)) :
    (st.thresholds.enabled = true → st.thresholds.upperBound < price →
      evts.filter Event.isThresholdBreached =
        [Event.thresholdBreached price true st.thresholds.upperBound]) ∧
    (st.thresholds.enabled = true → price < st.thresholds.lowerBound →
      evts.filter Event.isThresholdBreached =
        [Event.thresholdBreached price false st.thresholds.lowerBound]) ∧
    (st.thresholds.enabled = false →
      evts.filter Event.isThresholdBreached = []) ∧
    (st.thresholds.lowerBound ≤ price → price ≤ st.thresholds.upperBound →
      evts.filter Event.isThresholdBreached = []) ∧
    (evts.filter Event.isThresholdBreached).length ≤ 1 := by
  obtain ⟨appId, rfl⟩ := updatePrice_ok_events st st' sender now price timestamp
    attestation evts h
  rw [List.filter_append, checkThresholds_filter_breached]
  have hupd : [Event.priceUpdated price timestamp sender appId].filter
      Event.isThresholdBreached = [] := by
    simp [Event.isThresholdBreached]
  rw [hupd, List.append_nil]
  refine ⟨?_, ?_, ?_, ?_, ?_⟩
  · intro hen hgt
    unfold checkThresholds
    rw [if_neg (by simp [hen]), if_pos hgt]
  · intro hen hlt
    have hle := hinv hen
    unfold checkThresholds
    rw [if_neg (by simp [hen]), if_neg (by omega), if_pos hlt]
  · intro hdis
    simp [checkThresholds, hdis]
  · intro hlo hhi
    unfold checkThresholds
    split
    · rfl
    · rw [if_neg (by omega), if_neg (by omega)]
  · unfold checkThresholds
    split
    · simp
    · split
      · simp
      · split
        · simp
        · simp

/-- C4 witness: on the thresholds-enabled test state, the accepted update to
`3000·10^8` emits exactly one upper-breach event. -/
theorem updatePrice_threshold_events_witness :
    [Event.thresholdBreached 300000000000 true 250000000000,
      Event.priceUpdated 300000000000 1000 2 "app"].filter Event.isThresholdBreached =
      [Event.thresholdBreached 300000000000 true 250000000000] :=
  (updatePrice_threshold_events testStateThresholds
      { testStateThresholds with latestPrice :=
        { price := 300000000000, timestamp := 1000, oracle := 2,
          dataHash := Bytes32.keccakPacked 300000000000 1000 "app" } }
      2 1000 300000000000 1000 (some (testAtt 300000000000 1000))
      [Event.thresholdBreached 300000000000 true 250000000000,
       Event.priceUpdated 300000000000 1000 2 "app"]
      (fun _ => by decide) rfl).1 rfl (by decide)

/-- C5 counterexample: with `enabled = false` and `upper ≤ lower` (here
`upper = 5`, `lower = 10`) the owner's `setThresholds` call still reverts with
the invalid-range `require`, against the claim that every disabled
configuration is accepted. -/
theorem setThresholds_disabled_counterexample :
    setThresholds testState 1 5 10 false =
      Except.error (OracleError.requireFailure
        "Upper bound must be greater than lower bound") := rfl

/-- C5 amended: `setThresholds`, called by the owner, reverts with the
invalid-range error exactly when `upperBound ≤ lowerBound`, regardless of
`enabled` (in particular also when `enabled = false`); when
`upperBound > lowerBound` it stores the configuration and emits
`ThresholdConfigured`. -/
theorem setThresholds_range_check (st : ContractState)
    (upperBound : Nat) (lowerBound : Nat) (enabled : Bool) :
    (setThresholds st st.owner upperBound lowerBound enabled =
        Except.error (OracleError.requireFailure
          "Upper bound must be greater than lower bound") ↔
      upperBound ≤ lowerBound) ∧
    (lowerBound < upperBound →
      setThresholds st st.owner upperBound lowerBound enabled =
        Except.ok
          ({ st with thresholds :=
             { upperBound := upperBound, lowerBound := lowerBound, enabled := enabled } },
           [Event.thresholdConfigured upperBound lowerBound enabled])) := by
  unfold setThresholds
  rw [if_neg (by simp)]
  constructor
  · constructor
    · intro h
      by_contra hc
      rw [if_neg (by simpa using Nat.lt_of_not_le hc)] at h
      cases h
    · intro h
      rw [if_pos (by simpa using Nat.not_lt.mpr h)]
  · intro h
    rw [if_neg (by simpa using h)]

/-- C5 amended witness: the owner installs `[10, 20]` enabled. -/
theorem setThresholds_range_check_witness :
    setThresholds testState 1 20 10 true =
      Except.ok
        ({ testState with thresholds :=
           { upperBound := 20, lowerBound := 10, enabled := true } },
         [Event.thresholdConfigured 20 10 true]) :=
  (setThresholds_range_check testState 20 10 true).2 (by decide)

/-- Unfolding equation of `shouldUpdatePrice` with a previous price. -/
theorem shouldUpdatePrice_some (lp : ℤ) (c : ℤ) (t : ℚ) :
    shouldUpdatePrice (some lp) c t =
      if lp = 0 then true
      else decide (|(formatUnits8 c - formatUnits8 lp) / formatUnits8 lp| * 100 ≥ t) := rfl

/-- C7: the decision engine returns `true` with no previous quote; with
threshold `0` it returns `true` for every candidate; with a positive previous
price it returns `true` exactly when the relative change in percent,
`|candidate − previous| / previous × 100` over the scaled values, reaches the
threshold (boundary inclusive); at `previous = 2000·10^8` and threshold `5`,
candidate `2099.99999999·10^8` is rejected and `2100·10^8` accepted. -/
theorem shouldUpdatePrice_policy :
    (∀ (c : ℤ) (t : ℚ), shouldUpdatePrice none c t = true) ∧
    (∀ (lp c : ℤ), shouldUpdatePrice (some lp) c 0 = true) ∧
    (∀ (lp c : ℤ) (t : ℚ), 0 < lp →
      (shouldUpdatePrice (some lp) c t = true ↔
        |((c : ℚ)) - ((lp : ℚ))| / ((lp : ℚ)) * 100 ≥ t)) ∧
    shouldUpdatePrice (some 200000000000) 209999999999 5 = false ∧
    shouldUpdatePrice (some 200000000000) 210000000000 5 = true := by
  have h3 : ∀ (lp c : ℤ) (t : ℚ), 0 < lp →
      (shouldUpdatePrice (some lp) c t = true ↔
        |((c : ℚ)) - ((lp : ℚ))| / ((lp : ℚ)) * 100 ≥ t) := by
    intro lp c t hlp
    have hlpQ : (0 : ℚ) < (lp : ℚ) := by exact_mod_cast hlp
    have h0 : (lp : ℚ) ≠ 0 := ne_of_gt hlpQ
    rw [shouldUpdatePrice_some, if_neg hlp.ne', decide_eq_true_eq]
    have h1 : (formatUnits8 c - formatUnits8 lp) / formatUnits8 lp =
        ((c : ℚ) - (lp : ℚ)) / (lp : ℚ) := by
      unfold formatUnits8
      field_simp
    rw [h1, abs_div, abs_of_pos hlpQ]
  refine ⟨fun c t => rfl, ?_, h3, ?_, ?_⟩
  · intro lp c
    rw [shouldUpdatePrice_some]
    split
    · rfl
    · rw [decide_eq_true_eq]
      positivity
  · cases hb : shouldUpdatePrice (some 200000000000) 209999999999 5 with
    | false => rfl
    | true =>
      exfalso
      have hge := (h3 200000000000 209999999999 5 (by norm_num)).mp hb
      rw [show ((209999999999 : ℤ) : ℚ) = 209999999999 by norm_num,
          show ((200000000000 : ℤ) : ℚ) = 200000000000 by norm_num,
          show (209999999999 : ℚ) - 200000000000 = 9999999999 by norm_num,
          abs_of_nonneg (by norm_num : (0 : ℚ) ≤ 9999999999)] at hge
      norm_num at hge
  · refine (h3 200000000000 210000000000 5 (by norm_num)).mpr ?_
    rw [show ((210000000000 : ℤ) : ℚ) = 210000000000 by norm_num,
        show ((200000000000 : ℤ) : ℚ) = 200000000000 by norm_num,
        show (210000000000 : ℚ) - 200000000000 = 10000000000 by norm_num,
        abs_of_nonneg (by norm_num : (0 : ℚ) ≤ 10000000000)]
    norm_num

/-- C7 witness: bootstrap, zero threshold, and the formula for the accepted
boundary candidate at a positive previous price. -/
theorem shouldUpdatePrice_policy_witness :
    shouldUpdatePrice none 7 5 = true ∧
    shouldUpdatePrice (some 7) 7 0 = true ∧
    (shouldUpdatePrice (some 200000000000) 210000000000 5 = true ↔
      |(((210000000000 : ℤ) : ℚ)) - (((200000000000 : ℤ) : ℚ))| /
        (((200000000000 : ℤ) : ℚ)) * 100 ≥ 5) :=
  ⟨shouldUpdatePrice_policy.1 7 5, shouldUpdatePrice_policy.2.1 7 7,
   shouldUpdatePrice_policy.2.2.1 200000000000 210000000000 5 (by decide)⟩

/-- Unfolding equation of `fetchPriceFromCoinGecko` on a present value. -/
theorem fetchPrice_some (v : ℚ) (now : Nat) :
    fetchPriceFromCoinGecko (some v) now =
      if v = 0 then Except.error "Invalid response from CoinGecko API"
      else
        match parseUnits8 v with
        | Except.error e => Except.error e
        | Except.ok p =>
          Except.ok { price := p, timestamp := now, source := "coingecko" } := rfl

/-- C8 counterexample: the negative value `−5` is not rejected — the falsy
check lets it through and it is converted to the scaled integer `−5·10^8` —
refuting that the normalizer fails for every value `≤ 0`. -/
theorem fetchPrice_negative_accepted :
    (-5 : ℚ) ≤ 0 ∧
    fetchPriceFromCoinGecko (some (-5)) 777 =
      Except.ok { price := -500000000, timestamp := 777, source := "coingecko" } := by
  refine ⟨by norm_num, ?_⟩
  rw [fetchPrice_some, if_neg (by norm_num)]
  have hsc : (-5 : ℚ) * 100000000 = ((-500000000 : ℤ) : ℚ) := by norm_num
  simp only [parseUnits8, hsc, Rat.den_intCast, Rat.num_intCast]
  rw [if_pos trivial]

/-- C8 amended: the normalizer fails for a missing or zero value (the JS falsy
check); every other value — negative ones included — reaches the conversion,
which scales by `10^8` exactly when the value has at most 8 decimal places and
otherwise fails (no rounding and no truncation ever happen). -/
theorem fetchPrice_validation_and_scaling (v : ℚ) (now : Nat) :
    fetchPriceFromCoinGecko none now =
      Except.error "Invalid response from CoinGecko API" ∧
    fetchPriceFromCoinGecko (some 0) now =
      Except.error "Invalid response from CoinGecko API" ∧
    (v ≠ 0 → (v * 100000000).den = 1 →
      fetchPriceFromCoinGecko (some v) now =
        Except.ok { price := (v * 100000000).num, timestamp := now,
                    source := "coingecko" }) ∧
    (v ≠ 0 → (v * 100000000).den ≠ 1 →
      fetchPriceFromCoinGecko (some v) now =
        Except.error "fractional component exceeds decimals") := by
  refine ⟨rfl, rfl, ?_, ?_⟩
  · intro hv hden
    rw [fetchPrice_some, if_neg hv]
    simp only [parseUnits8]
    rw [if_pos hden]
  · intro hv hden
    rw [fetchPrice_some, if_neg hv]
    simp only [parseUnits8]
    rw [if_neg hden]

/-- C8 amended witness: the value `1/2` converts exactly to `5·10^7`. -/
theorem fetchPrice_validation_and_scaling_witness :
    fetchPriceFromCoinGecko (some (1 / 2 : ℚ)) 777 =
      Except.ok { price := ((1 / 2 : ℚ) * 100000000).num, timestamp := 777,
                  source := "coingecko" } :=
  (fetchPrice_validation_and_scaling (1 / 2 : ℚ) 777).2.2.1 (by norm_num)
    (by rw [show (1 / 2 : ℚ) * 100000000 = ((50000000 : ℤ) : ℚ) by norm_num]
        exact Rat.den_intCast 50000000)

/-- C9 counterexample: after a transient failure whose immediate retry would
succeed, the submission client surfaces the failure with the second outcome
unconsumed — it makes exactly one attempt — while a spec-conforming retrying
client with a cap of 2 attempts succeeds on the same outcome stream. -/
theorem submitPriceUpdate_no_retry_counterexample :
    submitPriceUpdate [TxOutcome.failure "NetworkError", TxOutcome.success 7] =
      (Except.error "NetworkError", [TxOutcome.success 7]) ∧
    submitWithRetry 2 [TxOutcome.failure "NetworkError", TxOutcome.success 7] =
      (Except.ok 7, []) := ⟨rfl, rfl⟩

/-- C9 amended: `submitPriceUpdate` makes exactly one attempt (consuming one
outcome) and surfaces a failure immediately, with no retry and no backoff;
`fetchAndUpdatePrice` catches a fetch failure and a submission failure,
leaving the oracle state unchanged, and never flips `isRunning` — so the
pipeline survives to the next poll cycle. -/
theorem submission_single_attempt_pipeline_survives :
    (∀ (o : TxOutcome) (rest : List TxOutcome),
      (submitPriceUpdate (o :: rest)).snd = rest) ∧
    (∀ (m : String) (rest : List TxOutcome),
      (submitPriceUpdate (TxOutcome.failure m :: rest)).fst = Except.error m) ∧
    (∀ (st : OracleState) (e : String) (t : ℚ) (atts : List TxOutcome),
      fetchAndUpdatePrice st (Except.error e) t atts = st) ∧
    (∀ (st : OracleState) (q : FetchedQuote) (t : ℚ) (m : String)
        (rest : List TxOutcome),
      fetchAndUpdatePrice st (Except.ok q) t (TxOutcome.failure m :: rest) = st) ∧
    (∀ (st : OracleState) (f : Except String FetchedQuote) (t : ℚ)
        (atts : List TxOutcome),
      (fetchAndUpdatePrice st f t atts).isRunning = st.isRunning) := by
  refine ⟨?_, ?_, ?_, ?_, ?_⟩
  · intro o rest
    cases o <;> rfl
  · intro m rest
    rfl
  · intro st e t atts
    unfold fetchAndUpdatePrice
    split <;> rfl
  · intro st q t m rest
    unfold fetchAndUpdatePrice
    split
    · rfl
    · split
      · rfl
      · split
        · rfl
        · rfl
  · intro st f t atts
    unfold fetchAndUpdatePrice
    split
    · rfl
    · split
      · rfl
      · split
        · rfl
        · split
          · rfl
          · rfl

/-- C10: on the freshly deployed contract, before any accepted update,
`getLatestPrice` returns `(0, 0)` and `getLatestPriceData` the all-zero
record — whose price violates the `value > 0` invariant of a `PriceQuote`. -/
theorem fresh_deploy_reads_zero_record (sender : Nat) (appId : String)
    (oracle : Nat) :
    getLatestPrice (deploy sender appId oracle).fst = (0, 0) ∧
    getLatestPriceData (deploy sender appId oracle).fst =
      { price := 0, timestamp := 0, oracle := 0, dataHash := Bytes32.zero } ∧
    ¬ 0 < (getLatestPriceData (deploy sender appId oracle).fst).price :=
  ⟨rfl, rfl, fun h => Nat.lt_irrefl 0 h⟩
